import Mathlib

/-!
Shallow embedding of the V3 LP hedging calculator (`src/calculator.js`).

Numbers are modelled as exact reals (`ℝ`); the swept percentages of the
scenario generator, and the validator's inputs, involve only comparisons
and exactly-representable literals, so they are modelled over `ℚ` to keep
them decidable.  The only `throw` in the numeric engine is the
out-of-range check of `calculateLiquidity`; fallible functions therefore
return `Except CalcError _`, and the `try/catch` wrappers pattern-match on
that result.
-/

/-- The single error thrown by the numeric engine:
`Error('Entry price must be within the specified range')`. -/
inductive CalcError where
  | outOfRange
deriving DecidableEq, Repr

/-- `toSqrtPrice(price)` — `Math.sqrt(price)`. -/
noncomputable def toSqrtPrice (price : ℝ) : ℝ := Real.sqrt price

/-- `calculateLiquidity(entryPrice, lpAmount, lowerRange, upperRange)`.
Throws when `entryPrice < lowerRange || entryPrice > upperRange`;
otherwise returns `lpAmount / (2·√P − P/√Pb − √Pa)`.  There is no guard
on the denominator in the source. -/
noncomputable def calculateLiquidity (entryPrice lpAmount lowerRange upperRange : ℝ) :
    Except CalcError ℝ :=
  let sqrtPa := toSqrtPrice lowerRange
  let sqrtPb := toSqrtPrice upperRange
  let sqrtP := toSqrtPrice entryPrice
  if entryPrice < lowerRange ∨ upperRange < entryPrice then
    Except.error CalcError.outOfRange
  else
    let denominator := 2 * sqrtP - entryPrice / sqrtPb - sqrtPa
    Except.ok (lpAmount / denominator)

/-- Result record of `calculateTokenDistribution`. -/
structure Distribution where
  tokenAmount : ℝ
  usdAmount : ℝ
  totalValue : ℝ

/-- `calculateTokenDistribution(currentPrice, liquidity, lowerRange, upperRange)`:
three-way branch on where the price falls relative to the range; the
returned amounts are clamped with `Math.max(0, ·)` while `totalValue` is
computed from the unclamped amounts, as in the source. -/
noncomputable def calculateTokenDistribution
    (currentPrice liquidity lowerRange upperRange : ℝ) : Distribution :=
  let sqrtPa := toSqrtPrice lowerRange
  let sqrtPb := toSqrtPrice upperRange
  let sqrtP := toSqrtPrice currentPrice
  let amounts : ℝ × ℝ :=
    if currentPrice ≤ lowerRange then
      (liquidity * (1 / sqrtPa - 1 / sqrtPb), 0)
    else if upperRange ≤ currentPrice then
      (0, liquidity * (sqrtPb - sqrtPa))
    else
      (liquidity * (1 / sqrtP - 1 / sqrtPb), liquidity * (sqrtP - sqrtPa))
  let totalValue := amounts.1 * currentPrice + amounts.2
  { tokenAmount := max 0 amounts.1
    usdAmount := max 0 amounts.2
    totalValue := totalValue }

/-- Result record of `calculateLPPosition`. -/
structure LPPosition where
  tokenAmount : ℝ
  usdAmount : ℝ
  totalValue : ℝ
  impermanentLoss : ℝ
  hodlValue : ℝ
  liquidity : ℝ
  initialTokenAmount : ℝ
  initialUsdAmount : ℝ
  initialTotalValue : ℝ

/-- The zeroed fallback object returned by `calculateLPPosition`'s `catch`
branch; `hodlValue` and `initialTotalValue` are the hard-coded literal
`10000` of the source. -/
def lpPositionFallback : LPPosition :=
  { tokenAmount := 0
    usdAmount := 0
    totalValue := 0
    impermanentLoss := 0
    hodlValue := 10000
    liquidity := 0
    initialTokenAmount := 0
    initialUsdAmount := 0
    initialTotalValue := 10000 }

/-- `calculateLPPosition(currentPrice, entryPrice, lpAmount, lowerRange, upperRange)`:
derives liquidity, decomposes at entry and at the current price, computes
HODL value and the three-regime impermanent loss; the `try/catch` maps
any thrown error to `lpPositionFallback`. -/
noncomputable def calculateLPPosition
    (currentPrice entryPrice lpAmount lowerRange upperRange : ℝ) : LPPosition :=
  match calculateLiquidity entryPrice lpAmount lowerRange upperRange with
  | Except.error _ => lpPositionFallback
  | Except.ok liquidity =>
    let initialDistribution :=
      calculateTokenDistribution entryPrice liquidity lowerRange upperRange
    let currentDistribution :=
      calculateTokenDistribution currentPrice liquidity lowerRange upperRange
    let initialTokenValue := initialDistribution.tokenAmount * entryPrice
    let initialTotalValue := initialTokenValue + initialDistribution.usdAmount
    let hodlValue :=
      initialDistribution.tokenAmount * currentPrice + initialDistribution.usdAmount
    let impermanentLoss :=
      if currentPrice ≤ lowerRange then
        (currentDistribution.tokenAmount - hodlValue / currentPrice) * currentPrice
      else if upperRange ≤ currentPrice then
        currentDistribution.usdAmount - hodlValue
      else
        currentDistribution.totalValue - hodlValue
    { tokenAmount := currentDistribution.tokenAmount
      usdAmount := currentDistribution.usdAmount
      totalValue := currentDistribution.totalValue
      impermanentLoss := impermanentLoss
      hodlValue := hodlValue
      liquidity := liquidity
      initialTokenAmount := initialDistribution.tokenAmount
      initialUsdAmount := initialDistribution.usdAmount
      initialTotalValue := initialTotalValue }

/-- `calculateShortPnL(currentPrice, entryPrice, shortSize)`. -/
noncomputable def calculateShortPnL (currentPrice entryPrice shortSize : ℝ) : ℝ :=
  if shortSize ≤ 0 then 0
  else shortSize * (1 - currentPrice / entryPrice)

/-- `calculateOptimalShortSize(entryPrice, lpAmount, lowerRange, upperRange)`:
delta-based sizing clamped to `[0.2, 0.8]·lpAmount`; its own `catch`
returns `lpAmount * 0.25`, so this function never propagates an error. -/
noncomputable def calculateOptimalShortSize
    (entryPrice lpAmount lowerRange upperRange : ℝ) : ℝ :=
  match calculateLiquidity entryPrice lpAmount lowerRange upperRange with
  | Except.error _ => lpAmount * 0.25
  | Except.ok liquidity =>
    let tokenDistribution :=
      calculateTokenDistribution entryPrice liquidity lowerRange upperRange
    let delta := tokenDistribution.tokenAmount
    let optimalShort := delta * entryPrice
    min (max optimalShort (lpAmount * 0.2)) (lpAmount * 0.8)

/-- Result record of `calculateMarketBasedShortSizes`. -/
structure ShortSizes where
  bull : ℝ
  normal : ℝ
  bear : ℝ

/-- `calculateMarketBasedShortSizes(entryPrice, lpAmount, lowerRange, upperRange)`.
The source wraps the body in `try/catch`, but `calculateOptimalShortSize`
catches every error internally and the remaining statements are plain
arithmetic, so the `catch` branch (the `0.2/0.25/0.35` fallback) is
unreachable and the embedding is the `try` body alone. -/
noncomputable def calculateMarketBasedShortSizes
    (entryPrice lpAmount lowerRange upperRange : ℝ) : ShortSizes :=
  let normalShort := calculateOptimalShortSize entryPrice lpAmount lowerRange upperRange
  let bullShort := normalShort * 0.7
  let bearShort := normalShort * 1.4
  { bull := min (max bullShort (lpAmount * 0.1)) (lpAmount * 0.6)
    normal := normalShort
    bear := min (max bearShort (lpAmount * 0.3)) (lpAmount * 0.9) }

/-- `CalculatorUtils.validateInputs(entryPrice, lpAmount, lowerRange, upperRange, shortSize)`:
accumulates every applicable violation message, in source order. -/
def validateInputs (entryPrice lpAmount lowerRange upperRange shortSize : ℚ) :
    List String :=
  (if entryPrice ≤ 0 then ["Entry price must be positive"] else []) ++
  (if lpAmount ≤ 0 then ["LP amount must be positive"] else []) ++
  (if shortSize < 0 then ["Short size cannot be negative"] else []) ++
  (if entryPrice ≤ lowerRange then ["Lower range must be below entry price"] else []) ++
  (if upperRange ≤ entryPrice then ["Upper range must be above entry price"] else []) ++
  (if upperRange ≤ lowerRange then ["Lower range must be below upper range"] else [])

/-- Result of the JavaScript property lookup `obj[key]` on a plain object
literal whose own properties are numbers: an own numeric property, a
member inherited from `Object.prototype` (a truthy function, or the
`__proto__` object, whose numeric coercion is `NaN`), or `undefined`. -/
inductive JsProp where
  | num (q : ℚ)
  | protoMember
  | undefined
deriving DecidableEq

/-- The property names every plain JavaScript object inherits from
`Object.prototype`: looking one of these up on an object literal yields a
truthy function (for `__proto__`, an object), so a `|| default` guard
does not replace it. -/
def objectPrototypeKeys : List String :=
  ["constructor", "hasOwnProperty", "isPrototypeOf", "propertyIsEnumerable",
   "toLocaleString", "toString", "valueOf", "__proto__", "__defineGetter__",
   "__defineSetter__", "__lookupGetter__", "__lookupSetter__"]

/-- `lookup || dflt`: a falsy own value (the number `0`) or `undefined` is
replaced by the default; an inherited member is truthy, survives the
`||`, and behaves as `NaN` in the loop's arithmetic (modelled `none`). -/
def jsOr (v : JsProp) (dflt : ℚ) : Option ℚ :=
  match v with
  | .num q => if q = 0 then some dflt else some q
  | .protoMember => none
  | .undefined => some dflt

/-- The `ranges` object lookup of `generatePriceScenarios`: the four own
properties, then the members inherited from `Object.prototype`, then
`undefined`. -/
def ranges (range : String) : JsProp :=
  if range = "narrow" then .num 25
  else if range = "medium" then .num 50
  else if range = "wide" then .num 75
  else if range = "extreme" then .num 100
  else if range ∈ objectPrototypeKeys then .protoMember
  else .undefined

/-- The `steps` object lookup of `generatePriceScenarios`: the three own
properties, then the members inherited from `Object.prototype`, then
`undefined`. -/
def steps (step : String) : JsProp :=
  if step = "fine" then .num (25 / 10)
  else if step = "normal" then .num 5
  else if step = "coarse" then .num 10
  else if step ∈ objectPrototypeKeys then .protoMember
  else .undefined

/-- The percentages visited by
`for (let i = -maxRange; i <= maxRange; i += stepSize)`, where either
bound may be a non-numeric value (`none`): a non-numeric `maxRange` makes
the initial test compare against `NaN` and the loop runs zero times; a
non-numeric `stepSize` lets the first iteration run and poisons `i` at
the first increment, ending the loop after one iteration; with numeric
values the loop visits the arithmetic progression `-maxRange + j·stepSize`
for `j = 0, …, ⌊2·maxRange/stepSize⌋` (the numeric step sizes are all
positive, for which this is exactly the loop's iteration sequence). -/
def sweepPercents (maxRange stepSize : Option ℚ) : List ℚ :=
  match maxRange, stepSize with
  | none, _ => []
  | some m, none => if -m ≤ m then [-m] else []
  | some m, some s =>
    (List.range (Nat.floor (2 * m / s) + 1)).map (fun j : ℕ => -m + j * s)

/-- One element of the array built by `generatePriceScenarios`. -/
structure Scenario where
  price : ℝ
  changePercent : ℚ

/-- `generatePriceScenarios(entryPrice, range, step)`. -/
noncomputable def generatePriceScenarios (entryPrice : ℝ) (range step : String) :
    List Scenario :=
  let maxRange := jsOr (ranges range) 50
  let stepSize := jsOr (steps step) 5
  (sweepPercents maxRange stepSize).map
    (fun (i : ℚ) => { price := entryPrice * (1 + (i : ℝ) / 100), changePercent := i })

/-- One element of the results array built by `generateTableData`. -/
structure TableRow where
  price : ℝ
  priceChange : ℚ
  tokenAmount : ℝ
  usdAmount : ℝ
  totalValue : ℝ
  lpPnL : ℝ
  shortPnL : ℝ
  netPnL : ℝ
  returnPct : ℝ
  isCurrentPrice : Bool

/-- `generateTableData(entryPrice, lpAmount, lowerRange, upperRange, shortSize,
priceRange, stepSize, lpFeeApr, duration, shortFundingRate)`. -/
noncomputable def generateTableData
    (entryPrice lpAmount lowerRange upperRange shortSize : ℝ)
    (priceRange stepSize : String)
    (lpFeeApr duration shortFundingRate : ℝ) : List TableRow :=
  let scenarios := generatePriceScenarios entryPrice priceRange stepSize
  let lpFees := lpAmount * (lpFeeApr / 100 / 365) * duration
  let shortFundingPnl := shortSize * (shortFundingRate / 100) * duration
  scenarios.map (fun scenario =>
    let lpResult := calculateLPPosition scenario.price entryPrice lpAmount lowerRange upperRange
    let shortPnlFromPrice := calculateShortPnL scenario.price entryPrice shortSize
    let totalShortPnl := shortPnlFromPrice + shortFundingPnl
    let lpPnL := lpResult.totalValue - lpAmount
    let netPnL := lpPnL + totalShortPnl + lpFees
    let returnPct := netPnL / lpAmount * 100
    { price := scenario.price
      priceChange := scenario.changePercent
      tokenAmount := lpResult.tokenAmount
      usdAmount := lpResult.usdAmount
      totalValue := lpResult.totalValue
      lpPnL := lpPnL
      shortPnL := totalShortPnl
      netPnL := netPnL
      returnPct := returnPct
      isCurrentPrice := decide (|scenario.changePercent| < (1 / 100 : ℚ)) })

/-! ## Helper lemmas -/

/-- For `0 < lowerRange < entryPrice < upperRange` the liquidity denominator
`2·√P − P/√Pb − √Pa` is strictly positive. -/
lemma denominator_pos {entryPrice lowerRange upperRange : ℝ}
    (hlow : 0 < lowerRange) (h1 : lowerRange < entryPrice) (h2 : entryPrice < upperRange) :
    0 < 2 * toSqrtPrice entryPrice - entryPrice / toSqrtPrice upperRange -
        toSqrtPrice lowerRange := by
  have hP : 0 < entryPrice := hlow.trans h1
  have hsp : 0 < Real.sqrt entryPrice := Real.sqrt_pos.mpr hP
  have hsa : Real.sqrt lowerRange < Real.sqrt entryPrice := Real.sqrt_lt_sqrt hlow.le h1
  have hsb : Real.sqrt entryPrice < Real.sqrt upperRange := Real.sqrt_lt_sqrt hP.le h2
  have key : entryPrice / Real.sqrt upperRange < Real.sqrt entryPrice := by
    have h := div_lt_div_of_pos_left hP hsp hsb
    rwa [Real.div_sqrt] at h
  unfold toSqrtPrice
  linarith

/-- Inside the range, `calculateLiquidity` returns the quotient by the
denominator. -/
lemma calculateLiquidity_interior {entryPrice lowerRange upperRange : ℝ} (lpAmount : ℝ)
    (h1 : lowerRange ≤ entryPrice) (h2 : entryPrice ≤ upperRange) :
    calculateLiquidity entryPrice lpAmount lowerRange upperRange =
      Except.ok (lpAmount /
        (2 * toSqrtPrice entryPrice - entryPrice / toSqrtPrice upperRange -
          toSqrtPrice lowerRange)) := by
  simp only [calculateLiquidity]
  rw [if_neg]
  push_neg
  exact ⟨h1, h2⟩

/-! ## Claim theorems -/

/-- C2: for every range with `0 < lowerPrice < upperPrice`, deposit
`lpAmount > 0` and entry price strictly inside the range, the liquidity
denominator `2·√P − P/√Pb − √Pa` is strictly positive and
`calculateLiquidity` returns a strictly positive liquidity `L`. -/
theorem C2_liquidity_pos (entryPrice lpAmount lowerRange upperRange : ℝ)
    (hlow : 0 < lowerRange) (h1 : lowerRange < entryPrice) (h2 : entryPrice < upperRange)
    (hlp : 0 < lpAmount) :
    0 < 2 * toSqrtPrice entryPrice - entryPrice / toSqrtPrice upperRange -
        toSqrtPrice lowerRange ∧
    ∃ L, calculateLiquidity entryPrice lpAmount lowerRange upperRange = Except.ok L ∧
      0 < L := by
  have hden := denominator_pos hlow h1 h2
  exact ⟨hden, _, calculateLiquidity_interior lpAmount h1.le h2.le, div_pos hlp hden⟩

/-- Witness for C2 at `entryPrice = 4`, `lpAmount = 1`, range `[1, 9]`. -/
theorem C2_liquidity_pos_witness :
    (0 < (1 : ℝ) ∧ (1 : ℝ) < 4 ∧ (4 : ℝ) < 9 ∧ 0 < (1 : ℝ)) ∧
    (0 < 2 * toSqrtPrice 4 - 4 / toSqrtPrice 9 - toSqrtPrice 1 ∧
      ∃ L, calculateLiquidity 4 1 1 9 = Except.ok L ∧ 0 < L) :=
  ⟨by norm_num,
    C2_liquidity_pos 4 1 1 9 (by norm_num) (by norm_num) (by norm_num) (by norm_num)⟩

/-- C3: deriving `L` from a strict-interior entry price and decomposing at
that same price reconstructs `totalValue = lpAmount` exactly. -/
theorem C3_roundtrip (entryPrice lpAmount lowerRange upperRange : ℝ)
    (hlow : 0 < lowerRange) (h1 : lowerRange < entryPrice) (h2 : entryPrice < upperRange)
    (hlp : 0 < lpAmount) :
    ∃ L, calculateLiquidity entryPrice lpAmount lowerRange upperRange = Except.ok L ∧
      (calculateTokenDistribution entryPrice L lowerRange upperRange).totalValue =
        lpAmount := by
  have hP : 0 < entryPrice := hlow.trans h1
  have hden := denominator_pos hlow h1 h2
  refine ⟨_, calculateLiquidity_interior lpAmount h1.le h2.le, ?_⟩
  simp only [calculateTokenDistribution]
  rw [if_neg (not_le.mpr h1), if_neg (not_le.mpr h2)]
  set sp := toSqrtPrice entryPrice with hsp_def
  set sa := toSqrtPrice lowerRange with hsa_def
  set sb := toSqrtPrice upperRange with hsb_def
  have hsp : 0 < sp := Real.sqrt_pos.mpr hP
  have hsb' : 0 < sb := Real.sqrt_pos.mpr (hP.trans h2)
  have hPsq : sp * sp = entryPrice := Real.mul_self_sqrt hP.le
  have hden' : 2 * sp - entryPrice / sb - sa ≠ 0 := ne_of_gt hden
  have hkey : (1 / sp - 1 / sb) * entryPrice + (sp - sa) =
      2 * sp - entryPrice / sb - sa := by
    rw [← hPsq]
    field_simp
    ring
  rw [show lpAmount / (2 * sp - entryPrice / sb - sa) * (1 / sp - 1 / sb) * entryPrice +
        lpAmount / (2 * sp - entryPrice / sb - sa) * (sp - sa) =
      lpAmount / (2 * sp - entryPrice / sb - sa) *
        ((1 / sp - 1 / sb) * entryPrice + (sp - sa)) from by ring,
    hkey, div_mul_cancel₀ lpAmount hden']

/-- Witness for C3 at `entryPrice = 4`, `lpAmount = 7`, range `[1, 9]`. -/
theorem C3_roundtrip_witness :
    (0 < (1 : ℝ) ∧ (1 : ℝ) < 4 ∧ (4 : ℝ) < 9 ∧ 0 < (7 : ℝ)) ∧
    ∃ L, calculateLiquidity 4 7 1 9 = Except.ok L ∧
      (calculateTokenDistribution 4 L 1 9).totalValue = 7 :=
  ⟨by norm_num,
    C3_roundtrip 4 7 1 9 (by norm_num) (by norm_num) (by norm_num) (by norm_num)⟩

/-- C4: `calculateTokenDistribution` branches three ways on the price's
position relative to the range — at or below the lower bound it is all
token, at or above the upper bound all cash, strictly inside a mix — the
returned amounts are nonnegative, and `totalValue` equals
`tokenAmount·price + usdAmount` of the returned amounts. -/
theorem C4_distribution (price L lowerRange upperRange : ℝ)
    (hp : 0 < price) (hL : 0 ≤ L) (hlow : 0 < lowerRange) (hlu : lowerRange < upperRange) :
    (price ≤ lowerRange →
      (calculateTokenDistribution price L lowerRange upperRange).tokenAmount =
        L * (1 / toSqrtPrice lowerRange - 1 / toSqrtPrice upperRange) ∧
      (calculateTokenDistribution price L lowerRange upperRange).usdAmount = 0) ∧
    (upperRange ≤ price →
      (calculateTokenDistribution price L lowerRange upperRange).tokenAmount = 0 ∧
      (calculateTokenDistribution price L lowerRange upperRange).usdAmount =
        L * (toSqrtPrice upperRange - toSqrtPrice lowerRange)) ∧
    (lowerRange < price → price < upperRange →
      (calculateTokenDistribution price L lowerRange upperRange).tokenAmount =
        L * (1 / toSqrtPrice price - 1 / toSqrtPrice upperRange) ∧
      (calculateTokenDistribution price L lowerRange upperRange).usdAmount =
        L * (toSqrtPrice price - toSqrtPrice lowerRange)) ∧
    0 ≤ (calculateTokenDistribution price L lowerRange upperRange).tokenAmount ∧
    0 ≤ (calculateTokenDistribution price L lowerRange upperRange).usdAmount ∧
    (calculateTokenDistribution price L lowerRange upperRange).totalValue =
      (calculateTokenDistribution price L lowerRange upperRange).tokenAmount * price +
      (calculateTokenDistribution price L lowerRange upperRange).usdAmount := by
  have hsa : 0 < toSqrtPrice lowerRange := Real.sqrt_pos.mpr hlow
  have hsb : 0 < toSqrtPrice upperRange := Real.sqrt_pos.mpr (hlow.trans hlu)
  have hab : toSqrtPrice lowerRange ≤ toSqrtPrice upperRange :=
    Real.sqrt_le_sqrt hlu.le
  have hbelow_token : 0 ≤ L * (1 / toSqrtPrice lowerRange - 1 / toSqrtPrice upperRange) := by
    have := one_div_le_one_div_of_le hsa hab
    have : (0 : ℝ) ≤ 1 / toSqrtPrice lowerRange - 1 / toSqrtPrice upperRange := by linarith
    exact mul_nonneg hL this
  have habove_usd : 0 ≤ L * (toSqrtPrice upperRange - toSqrtPrice lowerRange) :=
    mul_nonneg hL (by linarith)
  simp only [calculateTokenDistribution]
  by_cases hc1 : price ≤ lowerRange
  · rw [if_pos hc1]
    have hne2 : ¬ upperRange ≤ price := not_le.mpr (lt_of_le_of_lt hc1 hlu)
    refine ⟨fun _ => ⟨max_eq_right hbelow_token, max_self 0⟩,
      fun h => absurd h hne2,
      fun h _ => absurd (hc1.trans_lt h) (lt_irrefl price),
      ?_, ?_, ?_⟩
    · exact le_max_left 0 _
    · exact le_max_left 0 _
    · rw [max_eq_right hbelow_token, max_self 0]
  · rw [if_neg hc1]
    push_neg at hc1
    by_cases hc2 : upperRange ≤ price
    · rw [if_pos hc2]
      refine ⟨fun h => absurd (lt_of_le_of_lt (hc2.trans h) hlu) (lt_irrefl _),
        fun _ => ⟨max_self 0, max_eq_right habove_usd⟩,
        fun _ h => absurd (hc2.trans_lt h) (lt_irrefl upperRange),
        ?_, ?_, ?_⟩
      · exact le_max_left 0 _
      · exact le_max_left 0 _
      · rw [max_self 0, max_eq_right habove_usd]
    · rw [if_neg hc2]
      push_neg at hc2
      have hsp : 0 < toSqrtPrice price := Real.sqrt_pos.mpr hp
      have hpb : toSqrtPrice price ≤ toSqrtPrice upperRange := Real.sqrt_le_sqrt hc2.le
      have hap : toSqrtPrice lowerRange ≤ toSqrtPrice price := Real.sqrt_le_sqrt hc1.le
      have hmid_token : 0 ≤ L * (1 / toSqrtPrice price - 1 / toSqrtPrice upperRange) := by
        have := one_div_le_one_div_of_le hsp hpb
        have : (0 : ℝ) ≤ 1 / toSqrtPrice price - 1 / toSqrtPrice upperRange := by linarith
        exact mul_nonneg hL this
      have hmid_usd : 0 ≤ L * (toSqrtPrice price - toSqrtPrice lowerRange) :=
        mul_nonneg hL (by linarith)
      refine ⟨fun h => absurd h (not_le.mpr hc1),
        fun h => absurd h (not_le.mpr hc2),
        fun _ _ => ⟨max_eq_right hmid_token, max_eq_right hmid_usd⟩,
        ?_, ?_, ?_⟩
      · exact le_max_left 0 _
      · exact le_max_left 0 _
      · rw [max_eq_right hmid_token, max_eq_right hmid_usd]

/-- Witness for C4 at `price = 4`, `L = 1`, range `[1, 9]`. -/
theorem C4_distribution_witness :
    (0 < (4 : ℝ) ∧ 0 ≤ (1 : ℝ) ∧ 0 < (1 : ℝ) ∧ (1 : ℝ) < 9) ∧
    (((4 : ℝ) ≤ 1 →
      (calculateTokenDistribution 4 1 1 9).tokenAmount =
        1 * (1 / toSqrtPrice 1 - 1 / toSqrtPrice 9) ∧
      (calculateTokenDistribution 4 1 1 9).usdAmount = 0) ∧
    ((9 : ℝ) ≤ 4 →
      (calculateTokenDistribution 4 1 1 9).tokenAmount = 0 ∧
      (calculateTokenDistribution 4 1 1 9).usdAmount =
        1 * (toSqrtPrice 9 - toSqrtPrice 1)) ∧
    ((1 : ℝ) < 4 → (4 : ℝ) < 9 →
      (calculateTokenDistribution 4 1 1 9).tokenAmount =
        1 * (1 / toSqrtPrice 4 - 1 / toSqrtPrice 9) ∧
      (calculateTokenDistribution 4 1 1 9).usdAmount =
        1 * (toSqrtPrice 4 - toSqrtPrice 1)) ∧
    0 ≤ (calculateTokenDistribution 4 1 1 9).tokenAmount ∧
    0 ≤ (calculateTokenDistribution 4 1 1 9).usdAmount ∧
    (calculateTokenDistribution 4 1 1 9).totalValue =
      (calculateTokenDistribution 4 1 1 9).tokenAmount * 4 +
      (calculateTokenDistribution 4 1 1 9).usdAmount) :=
  ⟨by norm_num,
    C4_distribution 4 1 1 9 (by norm_num) (by norm_num) (by norm_num) (by norm_num)⟩

/-- C8: for `entryPrice > 0` and `shortSize ≥ 0`, `calculateShortPnL`
returns `shortSize·(1 − currentPrice/entryPrice)`; it is `0` at
`shortSize = 0` or at `currentPrice = entryPrice`, positive below entry
with a positive short, negative above entry with a positive short. -/
theorem C8_shortPnL (currentPrice entryPrice shortSize : ℝ)
    (hE : 0 < entryPrice) (hS : 0 ≤ shortSize) :
    calculateShortPnL currentPrice entryPrice shortSize =
      shortSize * (1 - currentPrice / entryPrice) ∧
    (shortSize = 0 → calculateShortPnL currentPrice entryPrice shortSize = 0) ∧
    (currentPrice = entryPrice → calculateShortPnL currentPrice entryPrice shortSize = 0) ∧
    (currentPrice < entryPrice → 0 < shortSize →
      0 < calculateShortPnL currentPrice entryPrice shortSize) ∧
    (entryPrice < currentPrice → 0 < shortSize →
      calculateShortPnL currentPrice entryPrice shortSize < 0) := by
  have hformula : calculateShortPnL currentPrice entryPrice shortSize =
      shortSize * (1 - currentPrice / entryPrice) := by
    rcases hS.eq_or_lt with h0 | hpos
    · simp [calculateShortPnL, ← h0]
    · simp [calculateShortPnL, not_le.mpr hpos]
  refine ⟨hformula, ?_, ?_, ?_, ?_⟩
  · intro h0
    rw [hformula, h0, zero_mul]
  · intro heq
    rw [hformula, heq, div_self (ne_of_gt hE)]
    ring
  · intro hlt hpos
    rw [hformula]
    have : currentPrice / entryPrice < 1 := (div_lt_one hE).mpr hlt
    exact mul_pos hpos (by linarith)
  · intro hgt hpos
    rw [hformula]
    have : 1 < currentPrice / entryPrice := (one_lt_div hE).mpr hgt
    exact mul_neg_of_pos_of_neg hpos (by linarith)

/-- Witness for C8 at `currentPrice = 3`, `entryPrice = 2`, `shortSize = 5`. -/
theorem C8_shortPnL_witness :
    (0 < (2 : ℝ) ∧ 0 ≤ (5 : ℝ)) ∧
    (calculateShortPnL 3 2 5 = 5 * (1 - 3 / 2) ∧
    ((5 : ℝ) = 0 → calculateShortPnL 3 2 5 = 0) ∧
    ((3 : ℝ) = 2 → calculateShortPnL 3 2 5 = 0) ∧
    ((3 : ℝ) < 2 → 0 < (5 : ℝ) → 0 < calculateShortPnL 3 2 5) ∧
    ((2 : ℝ) < 3 → 0 < (5 : ℝ) → calculateShortPnL 3 2 5 < 0)) :=
  ⟨by norm_num, C8_shortPnL 3 2 5 (by norm_num) (by norm_num)⟩

/-- C9: on the swapped-range input `(2000, 10000, 2200, 1800, 0)` the
validator returns the full list of applicable violations — containing
both "Lower range must be below entry price" and "Lower range must be
below upper range" — rather than stopping at the first. -/
theorem C9_validator :
    "Lower range must be below entry price" ∈ validateInputs 2000 10000 2200 1800 0 ∧
    "Lower range must be below upper range" ∈ validateInputs 2000 10000 2200 1800 0 ∧
    validateInputs 2000 10000 2200 1800 0 =
      ["Lower range must be below entry price",
       "Upper range must be above entry price",
       "Lower range must be below upper range"] := by
  refine ⟨?_, ?_, ?_⟩ <;> decide

/-- C1 counterexample: on the out-of-range entry price `10` with range
`[1, 2]` and `depositAmount = 5000`, the liquidity derivation fails but
the fallback's `hodlValue` is the hard-coded `10000`, not the
caller-supplied `5000`. -/
theorem C1_counterexample :
    calculateLiquidity 10 5000 1 2 = Except.error CalcError.outOfRange ∧
    (calculateLPPosition 1 10 5000 1 2).hodlValue ≠ 5000 := by
  have h : calculateLiquidity 10 5000 1 2 = Except.error CalcError.outOfRange := by
    simp only [calculateLiquidity]
    rw [if_pos (by norm_num)]
  refine ⟨h, ?_⟩
  simp only [calculateLPPosition, h, lpPositionFallback]
  norm_num

/-- C1 amended: whenever the internal liquidity derivation fails,
`calculateLPPosition` catches the error and returns the zeroed fallback
whose `hodlValue` (and `initialTotalValue`) is the hard-coded literal
`10000`, regardless of the caller-supplied deposit amount. -/
theorem C1_fallback (currentPrice entryPrice lpAmount lowerRange upperRange : ℝ)
    (e : CalcError)
    (h : calculateLiquidity entryPrice lpAmount lowerRange upperRange = Except.error e) :
    calculateLPPosition currentPrice entryPrice lpAmount lowerRange upperRange =
      { tokenAmount := 0, usdAmount := 0, totalValue := 0, impermanentLoss := 0,
        hodlValue := 10000, liquidity := 0, initialTokenAmount := 0,
        initialUsdAmount := 0, initialTotalValue := 10000 } := by
  simp only [calculateLPPosition, h, lpPositionFallback]

/-- Witness for C1's amended theorem at the out-of-range input
`(currentPrice, entryPrice, lpAmount, range) = (1, 10, 5000, [1, 2])`. -/
theorem C1_fallback_witness :
    calculateLiquidity 10 5000 1 2 = Except.error CalcError.outOfRange ∧
    calculateLPPosition 1 10 5000 1 2 =
      { tokenAmount := 0, usdAmount := 0, totalValue := 0, impermanentLoss := 0,
        hodlValue := 10000, liquidity := 0, initialTokenAmount := 0,
        initialUsdAmount := 0, initialTotalValue := 10000 } := by
  have h : calculateLiquidity 10 5000 1 2 = Except.error CalcError.outOfRange := by
    simp only [calculateLiquidity]
    rw [if_pos (by norm_num)]
  exact ⟨h, C1_fallback 1 10 5000 1 2 CalcError.outOfRange h⟩

/-- C5: on the degenerate input `entryPrice = lowerRange = upperRange = 1`
the out-of-range guard does not fire, the denominator
`2·√1 − 1/√1 − √1` is non-positive (it is `0`), and `calculateLiquidity`
still returns an `ok` quotient — there is no denominator guard and no
`DegenerateRangeError` anywhere in the code. -/
theorem C5_degenerate_unguarded :
    2 * toSqrtPrice 1 - 1 / toSqrtPrice 1 - toSqrtPrice 1 ≤ 0 ∧
    ∃ L, calculateLiquidity 1 1 1 1 = Except.ok L := by
  have h1 : toSqrtPrice 1 = 1 := by
    simp [toSqrtPrice]
  constructor
  · rw [h1]
    norm_num
  · refine ⟨1 / (2 * toSqrtPrice 1 - 1 / toSqrtPrice 1 - toSqrtPrice 1), ?_⟩
    simp only [calculateLiquidity]
    rw [if_neg (by norm_num)]

/-- C6 counterexample: on the out-of-range entry price `10` with range
`[1, 2]` and `depositAmount = 10000`, the liquidity derivation fails, but
the returned `bull` size is `1750 = 0.175·10000`, not `0.2·10000`: the
inner `catch` of `calculateOptimalShortSize` absorbs the failure first. -/
theorem C6_counterexample :
    calculateLiquidity 10 10000 1 2 = Except.error CalcError.outOfRange ∧
    (calculateMarketBasedShortSizes 10 10000 1 2).bull ≠ 0.2 * 10000 := by
  have h : calculateLiquidity 10 10000 1 2 = Except.error CalcError.outOfRange := by
    simp only [calculateLiquidity]
    rw [if_pos (by norm_num)]
  refine ⟨h, ?_⟩
  simp only [calculateMarketBasedShortSizes, calculateOptimalShortSize, h]
  rw [max_eq_left (by norm_num), min_eq_left (by norm_num)]
  norm_num

/-- C6 amended: when the liquidity derivation fails,
`calculateOptimalShortSize`'s own fallback yields `normal = 0.25·lpAmount`
before any error can reach `calculateMarketBasedShortSizes`, so the
returned sizes are `bull = 0.175·lpAmount`, `normal = 0.25·lpAmount`,
`bear = 0.35·lpAmount` (for `lpAmount > 0`); the `0.2/0.25/0.35` fallback
of `calculateMarketBasedShortSizes` itself is unreachable. -/
theorem C6_fallback (entryPrice lpAmount lowerRange upperRange : ℝ) (e : CalcError)
    (hlp : 0 < lpAmount)
    (h : calculateLiquidity entryPrice lpAmount lowerRange upperRange = Except.error e) :
    (calculateMarketBasedShortSizes entryPrice lpAmount lowerRange upperRange).bull =
      lpAmount * 0.175 ∧
    (calculateMarketBasedShortSizes entryPrice lpAmount lowerRange upperRange).normal =
      lpAmount * 0.25 ∧
    (calculateMarketBasedShortSizes entryPrice lpAmount lowerRange upperRange).bear =
      lpAmount * 0.35 := by
  simp only [calculateMarketBasedShortSizes, calculateOptimalShortSize, h]
  refine ⟨?_, ?_, ?_⟩
  · rw [show lpAmount * 0.25 * 0.7 = lpAmount * 0.175 from by ring,
      max_eq_left (by nlinarith), min_eq_left (by nlinarith)]
  · trivial
  · rw [show lpAmount * 0.25 * 1.4 = lpAmount * 0.35 from by ring,
      max_eq_left (by nlinarith), min_eq_left (by nlinarith)]

/-- Witness for C6's amended theorem at
`(entryPrice, lpAmount, range) = (10, 10000, [1, 2])`. -/
theorem C6_fallback_witness :
    (0 < (10000 : ℝ) ∧
      calculateLiquidity 10 10000 1 2 = Except.error CalcError.outOfRange) ∧
    ((calculateMarketBasedShortSizes 10 10000 1 2).bull = 10000 * 0.175 ∧
    (calculateMarketBasedShortSizes 10 10000 1 2).normal = 10000 * 0.25 ∧
    (calculateMarketBasedShortSizes 10 10000 1 2).bear = 10000 * 0.35) := by
  have h : calculateLiquidity 10 10000 1 2 = Except.error CalcError.outOfRange := by
    simp only [calculateLiquidity]
    rw [if_pos (by norm_num)]
  exact ⟨⟨by norm_num, h⟩,
    C6_fallback 10 10000 1 2 CalcError.outOfRange (by norm_num) h⟩

/-- The 21 swept percentages of the `medium`/`normal` configuration. -/
def mediumNormalPercents : List ℚ :=
  [-50, -45, -40, -35, -30, -25, -20, -15, -10, -5, 0,
    5, 10, 15, 20, 25, 30, 35, 40, 45, 50]

/-- C7: with range class `medium` and step class `normal`,
`generateTableData` produces exactly 21 rows whose swept percentages are
`-50, -45, …, 50` (strictly ascending and symmetric around `0`), with
exactly the `k = 0` row flagged `isCurrentPrice` and each row's price
equal to `entryPrice·(1 + k/100)`. -/
theorem C7_medium_normal
    (entryPrice lpAmount lowerRange upperRange shortSize : ℝ)
    (lpFeeApr duration shortFundingRate : ℝ) :
    (generateTableData entryPrice lpAmount lowerRange upperRange shortSize
        "medium" "normal" lpFeeApr duration shortFundingRate).length = 21 ∧
    (generateTableData entryPrice lpAmount lowerRange upperRange shortSize
        "medium" "normal" lpFeeApr duration shortFundingRate).map
        TableRow.priceChange = mediumNormalPercents ∧
    List.Chain' (fun a b => a < b)
      ((generateTableData entryPrice lpAmount lowerRange upperRange shortSize
        "medium" "normal" lpFeeApr duration shortFundingRate).map
        TableRow.priceChange) ∧
    ((generateTableData entryPrice lpAmount lowerRange upperRange shortSize
        "medium" "normal" lpFeeApr duration shortFundingRate).map
        TableRow.priceChange).map (fun k => -k) =
      ((generateTableData entryPrice lpAmount lowerRange upperRange shortSize
        "medium" "normal" lpFeeApr duration shortFundingRate).map
        TableRow.priceChange).reverse ∧
    (generateTableData entryPrice lpAmount lowerRange upperRange shortSize
        "medium" "normal" lpFeeApr duration shortFundingRate).map
        TableRow.isCurrentPrice =
      [false, false, false, false, false, false, false, false, false, false,
        true, false, false, false, false, false, false, false, false, false,
        false] ∧
    (generateTableData entryPrice lpAmount lowerRange upperRange shortSize
        "medium" "normal" lpFeeApr duration shortFundingRate).map
        TableRow.price =
      mediumNormalPercents.map (fun k => entryPrice * (1 + (k : ℝ) / 100)) := by
  have hr : jsOr (ranges "medium") 50 = some 50 := rfl
  have hs : jsOr (steps "normal") 5 = some 5 := rfl
  have h20 : Nat.floor (2 * (50 : ℚ) / 5) = 20 := by norm_num
  have hrange : List.range (20 + 1) =
      [0, 1, 2, 3, 4, 5, 6, 7, 8, 9, 10, 11, 12, 13, 14, 15, 16, 17, 18, 19, 20] := rfl
  have hsweep : sweepPercents (jsOr (ranges "medium") 50) (jsOr (steps "normal") 5) =
      mediumNormalPercents := by
    rw [hr, hs]
    simp only [sweepPercents, h20, hrange, List.map_cons, List.map_nil,
      mediumNormalPercents, List.cons.injEq, and_true]
    norm_num
  have hmap : (generateTableData entryPrice lpAmount lowerRange upperRange shortSize
      "medium" "normal" lpFeeApr duration shortFundingRate).map
      TableRow.priceChange = mediumNormalPercents := by
    simp only [generateTableData, generatePriceScenarios, hsweep, List.map_map]
    rfl
  refine ⟨?_, hmap, ?_, ?_, ?_, ?_⟩
  · simp only [generateTableData, generatePriceScenarios, hsweep, List.map_map,
      List.length_map]
    rfl
  · rw [hmap]
    simp only [mediumNormalPercents, List.chain'_cons, List.chain'_singleton, and_true]
    norm_num
  · rw [hmap]
    simp only [mediumNormalPercents, List.map_cons, List.map_nil, List.reverse_cons,
      List.append_nil, List.cons_append, List.nil_append, List.cons.injEq, and_true]
    norm_num
  · simp only [generateTableData, generatePriceScenarios, hsweep, List.map_map]
    show List.map _ mediumNormalPercents = _
    simp only [Function.comp_def, mediumNormalPercents, List.map_cons, List.map_nil,
      List.cons.injEq, and_true]
    norm_num
  · simp only [generateTableData, generatePriceScenarios, hsweep, List.map_map]
    rfl

/-- C10 counterexample: `"toString"` is not one of the four range class
names, yet `ranges["toString"] || 50` keeps the truthy inherited
`Object.prototype.toString` function, the loop bound coerces to `NaN`,
and the produced table is empty — not the 21-row `medium`/`normal`
table. -/
theorem C10_counterexample :
    ("toString" : String) ≠ "narrow" ∧ ("toString" : String) ≠ "medium" ∧
    ("toString" : String) ≠ "wide" ∧ ("toString" : String) ≠ "extreme" ∧
    ("junk" : String) ≠ "fine" ∧ ("junk" : String) ≠ "normal" ∧
    ("junk" : String) ≠ "coarse" ∧
    generateTableData 2000 10000 1800 2200 0 "toString" "junk" 0 0 0 ≠
      generateTableData 2000 10000 1800 2200 0 "medium" "normal" 0 0 0 := by
  refine ⟨by decide, by decide, by decide, by decide, by decide, by decide, by decide, ?_⟩
  have hempty : generateTableData 2000 10000 1800 2200 0 "toString" "junk" 0 0 0 =
      ([] : List TableRow) := by
    simp only [generateTableData, generatePriceScenarios]
    rw [show jsOr (ranges "toString") 50 = none from rfl]
    rfl
  have h20 : Nat.floor (2 * (50 : ℚ) / 5) = 20 := by norm_num
  have hlen : (generateTableData 2000 10000 1800 2200 0 "medium" "normal" 0 0 0).length =
      21 := by
    simp only [generateTableData, generatePriceScenarios, List.length_map]
    rw [show jsOr (ranges "medium") 50 = some 50 from rfl,
      show jsOr (steps "normal") 5 = some 5 from rfl]
    simp only [sweepPercents, h20, List.length_map, List.length_range]
  intro h
  rw [hempty] at h
  have hl := congrArg List.length h
  rw [hlen] at hl
  simp at hl

/-- C10 amended: for any range class that is neither one of
`narrow/medium/wide/extreme` nor a property name inherited from
`Object.prototype`, and any step class that is neither one of
`fine/normal/coarse` nor an inherited property name, both lookups fall
back to `50` and `5` (the `medium`/`normal` values), so
`generateTableData` produces exactly the same table as with
`medium`/`normal`. -/
theorem C10_default_classes
    (entryPrice lpAmount lowerRange upperRange shortSize : ℝ)
    (priceRange stepSize : String)
    (lpFeeApr duration shortFundingRate : ℝ)
    (hr1 : priceRange ≠ "narrow") (hr2 : priceRange ≠ "medium")
    (hr3 : priceRange ≠ "wide") (hr4 : priceRange ≠ "extreme")
    (hr5 : priceRange ∉ objectPrototypeKeys)
    (hs1 : stepSize ≠ "fine") (hs2 : stepSize ≠ "normal") (hs3 : stepSize ≠ "coarse")
    (hs4 : stepSize ∉ objectPrototypeKeys) :
    generateTableData entryPrice lpAmount lowerRange upperRange shortSize
        priceRange stepSize lpFeeApr duration shortFundingRate =
      generateTableData entryPrice lpAmount lowerRange upperRange shortSize
        "medium" "normal" lpFeeApr duration shortFundingRate := by
  have hR : jsOr (ranges priceRange) 50 = some 50 := by
    simp only [ranges]
    rw [if_neg hr1, if_neg hr2, if_neg hr3, if_neg hr4, if_neg hr5]
    rfl
  have hS : jsOr (steps stepSize) 5 = some 5 := by
    simp only [steps]
    rw [if_neg hs1, if_neg hs2, if_neg hs3, if_neg hs4]
    rfl
  have hRm : jsOr (ranges "medium") 50 = some 50 := rfl
  have hSm : jsOr (steps "normal") 5 = some 5 := rfl
  simp only [generateTableData, generatePriceScenarios, hR, hS, hRm, hSm]

/-- Witness for C10's amended theorem at the unrecognized class names
`"bogus"`/`"junk"`, neither of which is an inherited property name. -/
theorem C10_default_classes_witness :
    (("bogus" : String) ≠ "narrow" ∧ ("bogus" : String) ≠ "medium" ∧
      ("bogus" : String) ≠ "wide" ∧ ("bogus" : String) ≠ "extreme" ∧
      ("bogus" : String) ∉ objectPrototypeKeys ∧
      ("junk" : String) ≠ "fine" ∧ ("junk" : String) ≠ "normal" ∧
      ("junk" : String) ≠ "coarse" ∧
      ("junk" : String) ∉ objectPrototypeKeys) ∧
    generateTableData 2000 10000 1800 2200 0 "bogus" "junk" 0 0 0 =
      generateTableData 2000 10000 1800 2200 0 "medium" "normal" 0 0 0 :=
  ⟨⟨by decide, by decide, by decide, by decide, by decide, by decide, by decide,
      by decide, by decide⟩,
    C10_default_classes 2000 10000 1800 2200 0 "bogus" "junk" 0 0 0
      (by decide) (by decide) (by decide) (by decide) (by decide)
      (by decide) (by decide) (by decide) (by decide)⟩
